import Mathlib

/-!
# Verification of `supergene_classes` chapter path generation

Shallow embedding of the chapter filename / path generation logic of
`supergene_classes` (`chapter.py`): the `Chapter` record fields the logic
reads, Python's `str.zfill`, the helper `_create_subdir`, the methods
`Chapter._generate_filename` and `Chapter._generate_path`, and the
`chapter_gen` iterator.

Modelling conventions:
* Filesystem state is a list of existing directories, each recorded as its
  component list together with the permission bits it was created with.
* A `pathlib.Path` value is its list of components below the filesystem
  root; `str(path)` for such an absolute path is `"/"` followed by the
  components joined with `"/"`.
* Optional (possibly unset) Mongo record fields are `Option` values;
  Python truthiness tests `not self.chapter` / `not self.filename` are
  `isFalsyInt` / `isFalsyStr`.
* Python exceptions are the `PyError` type; a function body that can raise
  returns `Except PyError _`.  The decorator `@log.catch` on
  `_create_subdir` logs and swallows any exception, so the translated
  `create_subdir` returns `none` (and a filesystem unchanged by the failed
  step) where the undecorated body would raise.
-/

/-- Python `str.zfill(width)`: left-pad the string with `'0'` to `width`
characters, keeping a leading `'-'` sign in front of the padding. -/
def zfill (s : String) (width : Nat) : String :=
  if width ≤ s.length then s
  else
    match s.data with
    | '-' :: rest => "-" ++ String.mk (List.replicate (width - s.length) '0') ++ String.mk rest
    | _ => String.mk (List.replicate (width - s.length) '0') ++ s

/-- The fields of the `Chapter` Mongo document that the path/filename logic
reads (`book`, `chapter`, `filename`); unset fields are `none`. -/
structure ChapterRec where
  book : Option Int
  chapter : Option Int
  filename : Option String
  deriving Repr, DecidableEq

/-- Python truthiness of an optional integer field: `not self.chapter` is
true exactly when the field is unset (`None`) or zero. -/
def isFalsyInt : Option Int → Bool
  | none => true
  | some n => n == 0

/-- Python truthiness of an optional string field: `not self.filename` is
true exactly when the field is unset (`None`) or the empty string. -/
def isFalsyStr : Option String → Bool
  | none => true
  | some s => s == ""

/-- Python exceptions raised by the translated code. -/
inductive PyError where
  | exn : String → PyError
  | osError : String → PyError
  | fileNotFound : String → PyError
  deriving Repr, DecidableEq

/-- `Chapter._generate_filename(save)` (chapter.py lines 325-339).
Returns the raised exception or the produced filename, together with the
(possibly updated) record and whether `self.save()` was called:
`if not self.chapter: raise Exception(...)`, otherwise the filename is
`"chapter-" + str(self.chapter).zfill(4)`, and when `save` is true it is
stored on the record and the record is saved to the store. -/
def generate_filename (c : ChapterRec) (save : Bool) :
    Except PyError String × ChapterRec × Bool :=
  if isFalsyInt c.chapter then
    (.error (.exn "Unable to genereate filename"), c, false)
  else
    match c.chapter with
    | none => (.error (.exn "Unable to genereate filename"), c, false)
    | some n =>
      let chapter_zfill := zfill (toString n) 4
      let filename := "chapter-" ++ chapter_zfill
      if save then
        (.ok filename, { c with filename := some filename }, true)
      else
        (.ok filename, c, false)

deriving instance DecidableEq for Except

/-- The filesystem: the list of directories that exist, each as its
component list below the root together with the permission bits it was
created with. -/
structure FS where
  dirs : List (List String × Nat)
  deriving Repr, DecidableEq

/-- `path.exists()` for a directory path. -/
def FS.dirExists (fs : FS) (p : List String) : Bool :=
  fs.dirs.any fun e => decide (e.1 = p)

/-- `path.mkdir(mode=m, ...)` for a path whose parent exists and which does
not exist yet: the directory is recorded with the given permission bits. -/
def FS.mkdir (fs : FS) (p : List String) (m : Nat) : FS :=
  ⟨(p, m) :: fs.dirs⟩

set_option linter.unusedVariables false in
/-- `_create_subdir(parent, subdir, mode, parents=True, exist_ok=True)`
(chapter.py lines 95-162), including its `@log.catch` decorator.  The body
raises `FileNotFoundError` when `parent` does not exist; otherwise, when
`parent/subdir` does not exist, it calls
`SUB_DIR.mkdir(mode=0o775, parents=parents, exist_ok=exist_ok)` — note the
hard-coded `0o775`, not the `mode` parameter (whose declared default is
`0o755`) — and finally returns `SUB_DIR.exists()`.  `@log.catch` swallows
any raised exception, so the result is `none` in the raising case and the
filesystem is returned unchanged there. -/
def create_subdir (fs : FS) (parent : List String) (subdir : String) (mode : Nat) :
    FS × Option Bool :=
  if fs.dirExists parent then
    let SUB_DIR := parent ++ [subdir]
    let fs' := if fs.dirExists SUB_DIR then fs else fs.mkdir SUB_DIR 0o775
    (fs', some (fs'.dirExists SUB_DIR))
  else
    (fs, none)

/-- The block of `_generate_path` at chapter.py lines 366-370:
`BOOKS_DIR = CWD / books; if not BOOKS_DIR.exists(): _create_subdir(BOOKS_DIR, books)`.
(The call passes the not-yet-existing `BOOKS_DIR` itself as the parent.) -/
def ensureBooksDir (cwd : List String) (fs : FS) : FS :=
  if fs.dirExists (cwd ++ ["books"]) then fs
  else (create_subdir fs (cwd ++ ["books"]) "books" 0o755).1

/-- The block of `_generate_path` at chapter.py lines 373-377:
`BOOK_DIR = BOOKS_DIR / book_zfill; if not BOOK_DIR.exists(): _create_subdir(BOOKS_DIR, book_zfill)`. -/
def ensureBookDir (cwd : List String) (fs : FS) (book_zfill : String) : FS :=
  if fs.dirExists ((cwd ++ ["books"]) ++ [book_zfill]) then fs
  else (create_subdir fs (cwd ++ ["books"]) book_zfill 0o755).1

/-- The per-format block of `_generate_path` (e.g. lines 384-388 for csv):
`FMT_DIR = BOOK_DIR / fmt; if not FMT_DIR.exists(): _create_subdir(BOOK_DIR, fmt)`. -/
def ensureFormatDir (cwd : List String) (fs : FS) (book_zfill fmt : String) : FS :=
  if fs.dirExists (((cwd ++ ["books"]) ++ [book_zfill]) ++ [fmt]) then fs
  else (create_subdir fs ((cwd ++ ["books"]) ++ [book_zfill]) fmt 0o755).1

/-- `book_zfill = f"book{str(book).zfill(2)}"` (chapter.py line 360). -/
def book_zfill (b : Int) : String := "book" ++ zfill (toString b) 2

/-- `str(path)` for an absolute `pathlib.Path` given by its components. -/
def pathToString (p : List String) : String :=
  "/" ++ String.intercalate "/" p

/-- The value returned by `_generate_path`: a `str` or a `pathlib.Path`
(the latter kept as its component list). -/
inductive PathResult where
  | asString : String → PathResult
  | asPath : List String → PathResult
  deriving Repr, DecidableEq

/-- The state an invocation of `_generate_path` reads and writes: the
chapter record, the filesystem, and the number of `save()` calls made to
the document store. -/
structure St where
  record : ChapterRec
  fs : FS
  saves : Nat
  deriving Repr, DecidableEq

/-- `Chapter._generate_path(path_type, path_as_string)` (chapter.py lines
342-472), with the current working directory `cwd` (re-read inside the
method via `Path.cwd()`, assumed unchanged since record paths are relative
to it).

* If `not self.filename`, the filename is produced by
  `self._generate_filename()` (with `save=True`, so one `save()` happens);
  an exception from it propagates (`_generate_path` is not `@log.catch`ed).
* `book = int(self.book)` raises `TypeError` when the field is unset.
* `book_zfill = f"book{str(book).zfill(2)}"`; the `books` and book
  directories are checked/provisioned, then per format tag the format
  directory is checked/provisioned and the file path returned — as
  `str(path)` when `path_as_string` is true, as the `Path` otherwise.
* An unknown tag raises `OSError(f"OSError: Invalid file format: {path_type}")`. -/
def generate_path (cwd : List String) (st : St) (path_type : String)
    (path_as_string : Bool) : Except PyError (PathResult × St) :=
  let fnameStep : Except PyError (ChapterRec × Nat) :=
    if isFalsyStr st.record.filename then
      match generate_filename st.record true with
      | (.error e, _, _) => .error e
      | (.ok fn, rec1, saved) => .ok ({ rec1 with filename := some fn }, if saved then 1 else 0)
    else .ok (st.record, 0)
  match fnameStep with
  | .error e => .error e
  | .ok (rec, nsaves) =>
    match rec.book with
    | none => .error (.exn "TypeError: int() argument cannot be NoneType")
    | some book =>
      let filename := rec.filename.getD ""
      let fs2 := ensureBookDir cwd (ensureBooksDir cwd st.fs) (book_zfill book)
      let BOOK_DIR := (cwd ++ ["books"]) ++ [book_zfill book]
      if path_type = "csv" then
        let fs3 := ensureFormatDir cwd fs2 (book_zfill book) "csv"
        let path := (BOOK_DIR ++ ["csv"]) ++ [filename ++ ".csv"]
        .ok (if path_as_string then .asString (pathToString path) else .asPath path,
             ⟨rec, fs3, st.saves + nsaves⟩)
      else if path_type = "html" then
        let fs3 := ensureFormatDir cwd fs2 (book_zfill book) "html"
        let path := (BOOK_DIR ++ ["html"]) ++ [filename ++ ".html"]
        .ok (if path_as_string then .asString (pathToString path) else .asPath path,
             ⟨rec, fs3, st.saves + nsaves⟩)
      else if path_type = "json" then
        let fs3 := ensureFormatDir cwd fs2 (book_zfill book) "json"
        let path := (BOOK_DIR ++ ["json"]) ++ [filename ++ ".json"]
        .ok (if path_as_string then .asString (pathToString path) else .asPath path,
             ⟨rec, fs3, st.saves + nsaves⟩)
      else if path_type = "md" then
        let fs3 := ensureFormatDir cwd fs2 (book_zfill book) "md"
        let path := (BOOK_DIR ++ ["md"]) ++ [filename ++ ".md"]
        .ok (if path_as_string then .asString (pathToString path) else .asPath path,
             ⟨rec, fs3, st.saves + nsaves⟩)
      else if path_type = "text" then
        let fs3 := ensureFormatDir cwd fs2 (book_zfill book) "text"
        let path := (BOOK_DIR ++ ["text"]) ++ [filename ++ ".txt"]
        .ok (if path_as_string then .asString (pathToString path) else .asPath path,
             ⟨rec, fs3, st.saves + nsaves⟩)
      else
        .error (.osError ("OSError: Invalid file format: " ++ path_type))

/-- The five format tags `_generate_path` accepts. -/
def validTags : List String := ["csv", "html", "json", "md", "text"]

/-- The file extension for a format tag: the tag itself except `text → txt`. -/
def tagExt (t : String) : String := if t = "text" then "txt" else t

/-- The file suffix `_generate_path` appends for each valid format tag. -/
def fileSuffix : String → String
  | "csv" => ".csv"
  | "html" => ".html"
  | "json" => ".json"
  | "md" => ".md"
  | _ => ".txt"

/-- `chapter_gen.__next__` (chapter.py lines 527-542) as a step function on
the `chapter_number` state: `none` is `StopIteration`, otherwise the yielded
value and the new state (which always coincide).  The guard is the literal
`3462`, not the `end` attribute; chapter numbers `3095` and `3117` are
skipped by jumping two ahead. -/
def chapter_gen_next (c : Nat) : Option (Nat × Nat) :=
  if 3462 ≤ c then none
  else if c = 3094 then some (3096, 3096)
  else if c = 3116 then some (3118, 3118)
  else some (c + 1, c + 1)

/-- Iterating `chapter_gen` from state `c` for at most `fuel` further
`__next__` calls (via `chapter_gen_next`), collecting the yielded values. -/
def chapter_gen_aux : Nat → Nat → List Nat
  | 0, _ => []
  | fuel + 1, c =>
    match chapter_gen_next c with
    | none => []
    | some (y, c2) => y :: chapter_gen_aux fuel c2

/-- The full list of values iterating `chapter_gen` yields from state `c`:
every `__next__` step increases the state, so `3462 - c` calls always reach
`StopIteration` (`chapter_gen_aux_adequate` below shows the budget is
irrelevant as long as it is at least `3462 - c`). -/
def chapter_gen_yields (c : Nat) : List Nat :=
  chapter_gen_aux (3462 - c) c

/-- `chapter_gen.__len__` (chapter.py lines 544-545): `end - start + 1`. -/
def chapter_gen_len (start e : Int) : Int := e - start + 1

/-- A chapter number the generator does not skip. -/
def notSkipped (m : Nat) : Bool := !(m == 3095) && !(m == 3117)

example : generate_filename ⟨some 1, some 7, none⟩ true =
    (.ok "chapter-0007", ⟨some 1, some 7, some "chapter-0007"⟩, true) := by
  decide

example : generate_filename ⟨some 1, some 1234, none⟩ false =
    (.ok "chapter-1234", ⟨some 1, some 1234, none⟩, false) := by
  decide

example : generate_filename ⟨some 1, some 0, none⟩ true =
    (.error (.exn "Unable to genereate filename"), ⟨some 1, some 0, none⟩, false) := by
  decide

example :
    generate_path ["home"] ⟨⟨some 1, some 7, none⟩, ⟨[(["home", "books"], 0o755)]⟩, 0⟩
      "text" true =
    .ok (.asString "/home/books/book01/text/chapter-0007.txt",
      ⟨⟨some 1, some 7, some "chapter-0007"⟩,
       ⟨[(["home", "books", "book01", "text"], 0o775),
         (["home", "books", "book01"], 0o775),
         (["home", "books"], 0o755)]⟩, 1⟩) := by
  decide

example :
    generate_path ["home"] ⟨⟨some 1, some 7, some "chapter-0007"⟩, ⟨[]⟩, 0⟩ "md" true =
    .ok (.asString "/home/books/book01/md/chapter-0007.md",
      ⟨⟨some 1, some 7, some "chapter-0007"⟩, ⟨[]⟩, 0⟩) := by
  decide

example : chapter_gen_yields 3460 = [3461, 3462] := by decide

example : (chapter_gen_yields 3093).take 4 = [3094, 3096, 3097, 3098] := by decide

example : (chapter_gen_yields 3115).take 3 = [3116, 3118, 3119] := by decide

example : chapter_gen_yields 3462 = [] := by decide

example : chapter_gen_yields 5000 = [] := by decide

/-- Any fuel budget of at least `3462 - c` steps lets the iteration of
`chapter_gen_next` from `c` run to `StopIteration`, and the values yielded
are exactly `c+1, …, 3462` without the skipped numbers `3095` and `3117`. -/
theorem chapter_gen_aux_spec :
    ∀ fuel c, 3462 - c ≤ fuel →
      chapter_gen_aux fuel c = (List.range' (c + 1) (3462 - c)).filter notSkipped := by
  intro fuel
  induction fuel with
  | zero =>
    intro c h
    have h0 : 3462 - c = 0 := by omega
    simp [chapter_gen_aux, h0]
  | succ fuel ih =>
    intro c h
    by_cases hc : 3462 ≤ c
    · have h0 : 3462 - c = 0 := by omega
      simp [chapter_gen_aux, chapter_gen_next, hc, h0]
    · by_cases h2 : c = 3094
      · subst h2
        rw [chapter_gen_aux]
        simp only [chapter_gen_next]
        norm_num
        rw [ih 3096 (by omega)]
        have r1 : List.range' 3095 368 = 3095 :: List.range' 3096 367 :=
          List.range'_succ 3095 367 1
        have r2 : List.range' 3096 367 = 3096 :: List.range' 3097 366 :=
          List.range'_succ 3096 366 1
        norm_num
        rw [r1, r2]
        simp [List.filter_cons, notSkipped]
      · by_cases h3 : c = 3116
        · subst h3
          rw [chapter_gen_aux]
          simp only [chapter_gen_next]
          norm_num
          rw [ih 3118 (by omega)]
          have r1 : List.range' 3117 346 = 3117 :: List.range' 3118 345 :=
            List.range'_succ 3117 345 1
          have r2 : List.range' 3118 345 = 3118 :: List.range' 3119 344 :=
            List.range'_succ 3118 344 1
          norm_num
          rw [r1, r2]
          simp [List.filter_cons, notSkipped]
        · have e1 : 3462 - c = (3462 - (c + 1)) + 1 := by omega
          rw [chapter_gen_aux]
          simp only [chapter_gen_next]
          rw [if_neg hc, if_neg h2, if_neg h3]
          show (c + 1) :: chapter_gen_aux fuel (c + 1) = _
          rw [ih (c + 1) (by omega), e1, List.range'_succ]
          have hp : notSkipped (c + 1) = true := by
            simp [notSkipped]
            omega
          simp [List.filter_cons, hp]

/-- The yields of `chapter_gen` from state `c`: the numbers `c+1 … 3462`
in order with `3095` and `3117` removed. -/
theorem chapter_gen_yields_spec (c : Nat) :
    chapter_gen_yields c = (List.range' (c + 1) (3462 - c)).filter notSkipped :=
  chapter_gen_aux_spec (3462 - c) c (Nat.le_refl _)

/-- The fuel budget `3462 - c` in `chapter_gen_yields` is enough: any
larger budget iterates to the same list. -/
theorem chapter_gen_aux_adequate (fuel c : Nat) (h : 3462 - c ≤ fuel) :
    chapter_gen_aux fuel c = chapter_gen_yields c := by
  rw [chapter_gen_aux_spec fuel c h, chapter_gen_yields_spec]

/-- C9: for every start with `1 ≤ start < 3462`, iterating
`chapter_gen(start)` yields exactly `start+1, …, 3462` in increasing order
with `3095` and `3117` omitted when they fall in that range; it never
yields `start` itself, and `len()` returns `end - start + 1 = 3462 - start + 1`,
which exceeds the number of values actually yielded. -/
theorem chapter_gen_iteration (start : Nat) (h1 : 1 ≤ start) (h2 : start < 3462) :
    chapter_gen_yields start = (List.range' (start + 1) (3462 - start)).filter notSkipped
    ∧ start ∉ chapter_gen_yields start
    ∧ (chapter_gen_yields start).Pairwise (· < ·)
    ∧ chapter_gen_len (start : Int) 3462 = 3462 - (start : Int) + 1
    ∧ ((chapter_gen_yields start).length : Int) < chapter_gen_len (start : Int) 3462 := by
  have hspec := chapter_gen_yields_spec start
  have hlen : (chapter_gen_yields start).length ≤ 3462 - start := by
    rw [hspec]
    calc ((List.range' (start + 1) (3462 - start)).filter notSkipped).length
        ≤ (List.range' (start + 1) (3462 - start)).length := List.length_filter_le _ _
      _ = 3462 - start := List.length_range' _ _ _
  refine ⟨hspec, ?_, ?_, rfl, ?_⟩
  · rw [hspec]
    intro hmem
    have := (List.mem_filter.mp hmem).1
    rw [List.mem_range'] at this
    obtain ⟨i, _, hi⟩ := this
    omega
  · rw [hspec]
    exact (List.pairwise_lt_range' (start + 1) (3462 - start)).filter notSkipped
  · show _ < chapter_gen_len _ _
    rw [chapter_gen_len]
    omega

theorem chapter_gen_iteration_witness :
    1 ≤ 3093 ∧ 3093 < 3462 ∧
    (chapter_gen_yields 3093 = (List.range' (3093 + 1) (3462 - 3093)).filter notSkipped
     ∧ 3093 ∉ chapter_gen_yields 3093
     ∧ (chapter_gen_yields 3093).Pairwise (· < ·)
     ∧ chapter_gen_len ((3093 : Nat) : Int) 3462 = 3462 - ((3093 : Nat) : Int) + 1
     ∧ ((chapter_gen_yields 3093).length : Int) < chapter_gen_len ((3093 : Nat) : Int) 3462) :=
  ⟨by norm_num, by norm_num, chapter_gen_iteration 3093 (by norm_num) (by norm_num)⟩

/-- Directory existence after a `mkdir`. -/
theorem dirExists_mkdir (fs : FS) (p : List String) (m : Nat) (q : List String) :
    (fs.mkdir p m).dirExists q = (decide (p = q) || fs.dirExists q) := by
  simp [FS.mkdir, FS.dirExists]

/-- The `BOOKS_DIR` provisioning block is a no-op on the filesystem: when
`BOOKS_DIR` exists nothing is attempted, and when it does not, the call
`_create_subdir(BOOKS_DIR, books)` fails its parent-exists check (the
parent passed is the missing `BOOKS_DIR` itself) and the raised
`FileNotFoundError` is swallowed by `@log.catch`. -/
theorem ensureBooksDir_eq (cwd : List String) (fs : FS) :
    ensureBooksDir cwd fs = fs := by
  unfold ensureBooksDir create_subdir
  split_ifs <;> simp_all

/-- Characterization of the `BOOK_DIR` provisioning block: it creates
`BOOK_DIR` (with permission bits `0o775`) exactly when `BOOK_DIR` is
missing and `BOOKS_DIR` exists; otherwise the filesystem is unchanged. -/
theorem ensureBookDir_eq (cwd : List String) (fs : FS) (z : String) :
    ensureBookDir cwd fs z =
      if fs.dirExists ((cwd ++ ["books"]) ++ [z]) then fs
      else if fs.dirExists (cwd ++ ["books"]) then
        fs.mkdir ((cwd ++ ["books"]) ++ [z]) 0o775
      else fs := by
  unfold ensureBookDir create_subdir
  split_ifs with h1 h2 <;> simp_all

/-- Characterization of the per-format provisioning block: it creates
`BOOK_DIR/fmt` (with permission bits `0o775`) exactly when that directory
is missing and `BOOK_DIR` exists; otherwise the filesystem is unchanged. -/
theorem ensureFormatDir_eq (cwd : List String) (fs : FS) (z fmt : String) :
    ensureFormatDir cwd fs z fmt =
      if fs.dirExists (((cwd ++ ["books"]) ++ [z]) ++ [fmt]) then fs
      else if fs.dirExists ((cwd ++ ["books"]) ++ [z]) then
        fs.mkdir (((cwd ++ ["books"]) ++ [z]) ++ [fmt]) 0o775
      else fs := by
  unfold ensureFormatDir create_subdir
  split_ifs with h1 h2 <;> simp_all

/-- Evaluation of `_generate_path` when the record's `filename` is already
set (truthy) and `book` is set: no filename is regenerated, no `save()`
happens, the directory chain is provisioned by the three `ensure…` blocks,
and the returned path is
`CWD/books/book{BB}/{tag}/{filename}{suffix}` — as a string when
`path_as_string` is true and as a `Path` otherwise. -/
theorem generate_path_ok_set (cwd : List String) (st : St) (tag : String) (pas : Bool)
    (b : Int) (F : String)
    (hb : st.record.book = some b) (hf : st.record.filename = some F)
    (hF : (F == "") = false) (ht : tag ∈ validTags) :
    generate_path cwd st tag pas = .ok
      ((if pas then
          PathResult.asString (pathToString
            ((((cwd ++ ["books"]) ++ [book_zfill b]) ++ [tag]) ++ [F ++ fileSuffix tag]))
        else
          PathResult.asPath
            ((((cwd ++ ["books"]) ++ [book_zfill b]) ++ [tag]) ++ [F ++ fileSuffix tag])),
       ⟨st.record,
        ensureFormatDir cwd (ensureBookDir cwd (ensureBooksDir cwd st.fs) (book_zfill b))
          (book_zfill b) tag,
        st.saves⟩) := by
  simp only [validTags, List.mem_cons, List.not_mem_nil, or_false] at ht
  rcases ht with rfl | rfl | rfl | rfl | rfl <;>
    simp [generate_path, hf, hb, isFalsyStr, hF, fileSuffix]

/-- Evaluation of `_generate_path` when the record's `filename` is unset or
empty (falsy) and the chapter number is truthy: the filename
`chapter-NNNN` is generated, stored on the record and saved once
(`saves + 1`), and the returned path uses the generated filename. -/
theorem generate_path_ok_gen (cwd : List String) (st : St) (tag : String) (pas : Bool)
    (b n : Int)
    (hb : st.record.book = some b) (hf : isFalsyStr st.record.filename = true)
    (hc : st.record.chapter = some n) (hn : (n == 0) = false) (ht : tag ∈ validTags) :
    generate_path cwd st tag pas = .ok
      ((if pas then
          PathResult.asString (pathToString
            ((((cwd ++ ["books"]) ++ [book_zfill b]) ++ [tag]) ++
              [("chapter-" ++ zfill (toString n) 4) ++ fileSuffix tag]))
        else
          PathResult.asPath
            ((((cwd ++ ["books"]) ++ [book_zfill b]) ++ [tag]) ++
              [("chapter-" ++ zfill (toString n) 4) ++ fileSuffix tag])),
       ⟨{ st.record with filename := some ("chapter-" ++ zfill (toString n) 4) },
        ensureFormatDir cwd (ensureBookDir cwd (ensureBooksDir cwd st.fs) (book_zfill b))
          (book_zfill b) tag,
        st.saves + 1⟩) := by
  simp only [validTags, List.mem_cons, List.not_mem_nil, or_false] at ht
  rcases ht with rfl | rfl | rfl | rfl | rfl <;>
    simp [generate_path, generate_filename, hf, hb, hc, isFalsyInt, hn, fileSuffix]

/-- A generated filename `chapter-…` is never the empty string. -/
theorem chapter_filename_ne_empty (s : String) : (("chapter-" ++ s) == "") = false := by
  simp only [beq_eq_false_iff_ne, ne_eq]
  intro h
  have hl := congrArg String.length h
  rw [String.length_append] at hl
  have h8 : "chapter-".length = 8 := rfl
  have h0 : "".length = 0 := rfl
  omega

/-- A non-falsy string field is a set, non-empty string. -/
theorem not_falsyStr (o : Option String) (h : isFalsyStr o = false) :
    ∃ F, o = some F ∧ (F == "") = false := by
  rcases o with _ | F
  · simp [isFalsyStr] at h
  · exact ⟨F, rfl, by simpa [isFalsyStr] using h⟩

/-- `_generate_filename` never changes the record's `book` field. -/
theorem generate_filename_book (c : ChapterRec) (save : Bool) :
    (generate_filename c save).2.1.book = c.book := by
  rcases hc : c.chapter with _ | n
  · simp [generate_filename, isFalsyInt, hc]
  · by_cases hn : (n == 0) = true
    · simp [generate_filename, isFalsyInt, hc, hn]
    · rw [Bool.not_eq_true] at hn
      cases save <;> simp [generate_filename, isFalsyInt, hc, hn]

/-- `_generate_path` with a format tag outside `csv|html|json|md|text`
always raises: either the propagated filename-generation exception, the
`TypeError` from `int(None)`, or the `OSError` for the invalid tag. -/
theorem generate_path_unknown_tag_error (cwd : List String) (st : St) (tag : String)
    (pas : Bool) (ht : ¬ tag ∈ validTags) :
    ∃ e, generate_path cwd st tag pas = .error e := by
  simp only [validTags, List.mem_cons, List.not_mem_nil, or_false, not_or] at ht
  obtain ⟨h1, h2, h3, h4, h5⟩ := ht
  by_cases hfal : isFalsyStr st.record.filename = true
  · rcases hgf : generate_filename st.record true with ⟨res, rec1, saved⟩
    cases res with
    | error e => exact ⟨e, by simp [generate_path, hfal, hgf]⟩
    | ok fn =>
      rcases hbook : rec1.book with _ | b
      · exact ⟨.exn "TypeError: int() argument cannot be NoneType",
          by simp [generate_path, hfal, hgf, hbook]⟩
      · exact ⟨.osError ("OSError: Invalid file format: " ++ tag),
          by simp [generate_path, hfal, hgf, hbook, h1, h2, h3, h4, h5]⟩
  · rw [Bool.not_eq_true] at hfal
    rcases hbook : st.record.book with _ | b
    · exact ⟨.exn "TypeError: int() argument cannot be NoneType",
        by simp [generate_path, hfal, hbook]⟩
    · exact ⟨.osError ("OSError: Invalid file format: " ++ tag),
        by simp [generate_path, hfal, hbook, h1, h2, h3, h4, h5]⟩

/-- Running the directory-provisioning chain of `_generate_path` a second
time on the filesystem it produced changes nothing. -/
theorem provision_idem (cwd : List String) (z d : String) (fs : FS) :
    ensureFormatDir cwd (ensureBookDir cwd (ensureFormatDir cwd (ensureBookDir cwd fs z) z d) z) z d
    = ensureFormatDir cwd (ensureBookDir cwd fs z) z d := by
  by_cases hBooks : fs.dirExists (cwd ++ ["books"]) = true <;>
  by_cases hBook : fs.dirExists (cwd ++ ["books", z]) = true <;>
  by_cases hFmt : fs.dirExists (cwd ++ ["books", z, d]) = true <;>
    simp [ensureBookDir_eq, ensureFormatDir_eq, hBooks, hBook, hFmt, dirExists_mkdir]

/-- C1: for every positive chapter number `N`, `Chapter._generate_filename`
returns the string `"chapter-"` followed by `str(N).zfill(4)` (e.g. `N = 7`
gives `"chapter-0007"`), and the record's `filename` field is set to that
same string. -/
theorem generate_filename_positive (c : ChapterRec) (n : Int)
    (hc : c.chapter = some n) (hn : 0 < n) :
    (generate_filename c true).1 = .ok ("chapter-" ++ zfill (toString n) 4)
    ∧ (generate_filename c true).2.1.filename =
        some ("chapter-" ++ zfill (toString n) 4)
    ∧ (generate_filename c true).2.2 = true := by
  have hfalsy : isFalsyInt (some n) = false := by
    simp only [isFalsyInt, beq_eq_false_iff_ne, ne_eq]
    omega
  simp [generate_filename, hc, hfalsy]

theorem generate_filename_positive_witness :
    (⟨some 1, some 7, none⟩ : ChapterRec).chapter = some 7 ∧ (0 : Int) < 7 ∧
    ((generate_filename ⟨some 1, some 7, none⟩ true).1 = .ok "chapter-0007"
     ∧ (generate_filename ⟨some 1, some 7, none⟩ true).2.1.filename =
         some "chapter-0007"
     ∧ (generate_filename ⟨some 1, some 7, none⟩ true).2.2 = true) :=
  ⟨rfl, by norm_num,
   generate_filename_positive ⟨some 1, some 7, none⟩ 7 rfl (by norm_num)⟩

/-- C6: `Chapter._generate_filename` raises an error if and only if the
chapter number is absent (`None`) or zero; in that case the record is
unchanged (no filename is set) and no `save()` happens. -/
theorem generate_filename_error_iff (c : ChapterRec) (save : Bool) :
    ((∃ e, (generate_filename c save).1 = .error e)
       ↔ (c.chapter = none ∨ c.chapter = some 0))
    ∧ ((c.chapter = none ∨ c.chapter = some 0) →
        (generate_filename c save).2 = (c, false)) := by
  rcases hch : c.chapter with _ | n
  · simp [generate_filename, isFalsyInt, hch]
  · by_cases hn : (n == 0) = true
    · rw [beq_iff_eq] at hn
      subst hn
      simp [generate_filename, isFalsyInt, hch]
    · rw [Bool.not_eq_true, beq_eq_false_iff_ne, ne_eq] at hn
      cases save <;> simp [generate_filename, isFalsyInt, hch, hn]

theorem generate_filename_error_iff_witness :
    ((⟨some 1, some 0, none⟩ : ChapterRec).chapter = none
      ∨ (⟨some 1, some 0, none⟩ : ChapterRec).chapter = some 0) ∧
    (generate_filename ⟨some 1, some 0, none⟩ true).2 =
      ((⟨some 1, some 0, none⟩ : ChapterRec), false) :=
  ⟨Or.inr rfl,
   (generate_filename_error_iff ⟨some 1, some 0, none⟩ true).2 (Or.inr rfl)⟩

/-- For a valid tag the appended suffix is a dot followed by the tag's
extension (the tag itself, except `text ↦ txt`). -/
theorem fileSuffix_eq_dot_tagExt (t : String) (ht : t ∈ validTags) :
    fileSuffix t = "." ++ tagExt t := by
  simp only [validTags, List.mem_cons, List.not_mem_nil, or_false] at ht
  rcases ht with rfl | rfl | rfl | rfl | rfl <;> rfl

set_option linter.unusedVariables false in
/-- C2: for every record with book number `B` in `1..10` and a set
(non-empty) filename `F`, and every valid format tag,
`Chapter._generate_path(tag)` (with the default `path_as_string=True`)
returns the string form of the path
`CWD/books/book{BB}/{tag}/{F}.{ext}`, where `BB` is `B` zero-padded to two
digits and `ext` is the tag itself except that `text` yields `txt`. -/
theorem generate_path_valid_format (cwd : List String) (st : St) (tag : String)
    (b : Int) (F : String)
    (hb : st.record.book = some b) (hb1 : 1 ≤ b) (hb10 : b ≤ 10)
    (hf : st.record.filename = some F) (hF : (F == "") = false)
    (ht : tag ∈ validTags) :
    ∃ st1, generate_path cwd st tag true = .ok
      (PathResult.asString (pathToString
        ((((cwd ++ ["books"]) ++ ["book" ++ zfill (toString b) 2]) ++ [tag]) ++
          [F ++ "." ++ tagExt tag])), st1) := by
  rw [show F ++ "." ++ tagExt tag = F ++ fileSuffix tag from by
    rw [String.append_assoc, fileSuffix_eq_dot_tagExt tag ht]]
  exact ⟨_, generate_path_ok_set cwd st tag true b F hb hf hF ht⟩

theorem generate_path_valid_format_witness :
    ∃ st1, generate_path ["home"]
        ⟨⟨some 3, some 42, some "chapter-0042"⟩, ⟨[]⟩, 0⟩ "text" true = .ok
      (PathResult.asString (pathToString
        (((["home"] ++ ["books"]) ++ ["book" ++ zfill (toString (3 : Int)) 2]) ++ ["text"] ++
          ["chapter-0042" ++ "." ++ tagExt "text"])), st1) :=
  generate_path_valid_format ["home"] ⟨⟨some 3, some 42, some "chapter-0042"⟩, ⟨[]⟩, 0⟩
    "text" 3 "chapter-0042" rfl (by norm_num) (by norm_num) rfl (by decide) (by decide)

/-- C10: for every valid record and valid format tag, `_generate_path`
returns a string when `path_as_string` is true (the default) and a `Path`
when it is false, and the string is exactly `str()` of that same path. -/
theorem generate_path_string_and_path (cwd : List String) (st : St) (tag : String)
    (b n : Int)
    (hb : st.record.book = some b) (hc : st.record.chapter = some n)
    (hn : (n == 0) = false) (ht : tag ∈ validTags) :
    ∃ p st1 st2,
      generate_path cwd st tag false = .ok (PathResult.asPath p, st1)
      ∧ generate_path cwd st tag true = .ok (PathResult.asString (pathToString p), st2) := by
  by_cases hfal : isFalsyStr st.record.filename = true
  · exact ⟨_, _, _, generate_path_ok_gen cwd st tag false b n hb hfal hc hn ht,
      generate_path_ok_gen cwd st tag true b n hb hfal hc hn ht⟩
  · rw [Bool.not_eq_true] at hfal
    obtain ⟨F, hf, hF⟩ := not_falsyStr st.record.filename hfal
    exact ⟨_, _, _, generate_path_ok_set cwd st tag false b F hb hf hF ht,
      generate_path_ok_set cwd st tag true b F hb hf hF ht⟩

theorem generate_path_string_and_path_witness :
    ∃ p st1 st2,
      generate_path ["home"] ⟨⟨some 1, some 7, none⟩, ⟨[]⟩, 0⟩ "md" false =
        .ok (PathResult.asPath p, st1)
      ∧ generate_path ["home"] ⟨⟨some 1, some 7, none⟩, ⟨[]⟩, 0⟩ "md" true =
        .ok (PathResult.asString (pathToString p), st2) :=
  generate_path_string_and_path ["home"] ⟨⟨some 1, some 7, none⟩, ⟨[]⟩, 0⟩ "md"
    1 7 rfl rfl (by decide) (by decide)

/-- C5: for every record and every format tag outside
`{csv, html, json, md, text}`, `Chapter._generate_path` raises an error —
it never returns a path and never silently ignores the tag. -/
theorem generate_path_invalid_format (cwd : List String) (st : St) (tag : String)
    (pas : Bool) (ht : ¬ tag ∈ validTags) :
    ∃ e, generate_path cwd st tag pas = .error e :=
  generate_path_unknown_tag_error cwd st tag pas ht

theorem generate_path_invalid_format_witness :
    ∃ e, generate_path ["home"] ⟨⟨some 1, some 7, some "chapter-0007"⟩, ⟨[]⟩, 0⟩
        "pdf" true = .error e :=
  generate_path_invalid_format ["home"] ⟨⟨some 1, some 7, some "chapter-0007"⟩, ⟨[]⟩, 0⟩
    "pdf" true (by decide)

/-- C7: a set (non-empty) `filename` is stable — `_generate_path` returns it
unchanged with no extra `save()` — and when `filename` is falsy it is
generated from the chapter number, stored and persisted exactly once. -/
theorem generate_path_filename_stability :
    (∀ cwd st tag pas F p st1,
       st.record.filename = some F → (F == "") = false →
       generate_path cwd st tag pas = .ok (p, st1) →
       st1.record.filename = some F ∧ st1.saves = st.saves)
    ∧ (∀ cwd st tag pas n p st1,
       isFalsyStr st.record.filename = true → st.record.chapter = some n →
       generate_path cwd st tag pas = .ok (p, st1) →
       st1.record.filename = some ("chapter-" ++ zfill (toString n) 4)
       ∧ st1.saves = st.saves + 1) := by
  constructor
  · intro cwd st tag pas F p st1 hf hF h
    by_cases ht : tag ∈ validTags
    · rcases hb : st.record.book with _ | b
      · have hfal : isFalsyStr st.record.filename = false := by
          simp [isFalsyStr, hf, hF]
        have herr : generate_path cwd st tag pas =
            .error (.exn "TypeError: int() argument cannot be NoneType") := by
          simp [generate_path, hfal, hb]
        rw [herr] at h
        cases h
      · rw [generate_path_ok_set cwd st tag pas b F hb hf hF ht] at h
        simp only [Except.ok.injEq, Prod.mk.injEq] at h
        obtain ⟨hp, hst⟩ := h
        subst hst
        exact ⟨hf, rfl⟩
    · obtain ⟨e, he⟩ := generate_path_unknown_tag_error cwd st tag pas ht
      rw [he] at h
      cases h
  · intro cwd st tag pas n p st1 hfal hc h
    by_cases ht : tag ∈ validTags
    · by_cases hn : (n == 0) = true
      · have hzero : isFalsyInt st.record.chapter = true := by
          rw [hc]
          simpa [isFalsyInt] using hn
        have herr : generate_path cwd st tag pas =
            .error (.exn "Unable to genereate filename") := by
          simp [generate_path, hfal, generate_filename, hzero]
        rw [herr] at h
        cases h
      · rw [Bool.not_eq_true] at hn
        rcases hb : st.record.book with _ | b
        · have herr : generate_path cwd st tag pas =
              .error (.exn "TypeError: int() argument cannot be NoneType") := by
            simp [generate_path, hfal, generate_filename, isFalsyInt, hc, hn, hb]
          rw [herr] at h
          cases h
        · rw [generate_path_ok_gen cwd st tag pas b n hb hfal hc hn ht] at h
          simp only [Except.ok.injEq, Prod.mk.injEq] at h
          obtain ⟨hp, hst⟩ := h
          subst hst
          exact ⟨rfl, rfl⟩
    · obtain ⟨e, he⟩ := generate_path_unknown_tag_error cwd st tag pas ht
      rw [he] at h
      cases h

theorem generate_path_filename_stability_witness :
    (⟨⟨some 1, some 5, some "keep-me"⟩, ⟨[]⟩, 0⟩ : St).record.filename = some "keep-me"
    ∧ (⟨⟨some 1, some 5, some "keep-me"⟩, ⟨[]⟩, 0⟩ : St).saves =
        (⟨⟨some 1, some 5, some "keep-me"⟩, ⟨[]⟩, 0⟩ : St).saves :=
  generate_path_filename_stability.1 ["home"]
    ⟨⟨some 1, some 5, some "keep-me"⟩, ⟨[]⟩, 0⟩ "text" true "keep-me"
    (PathResult.asString "/home/books/book01/text/keep-me.txt")
    ⟨⟨some 1, some 5, some "keep-me"⟩, ⟨[]⟩, 0⟩ rfl (by decide) (by decide)

/-- C8: whenever `_create_subdir` actually creates the missing
sub-directory, the directory is recorded with permission bits `0o775`, no
matter what `mode` argument was passed (the parameter, whose declared
default is `0o755`, is ignored by the `mkdir` call). -/
theorem create_subdir_ignores_mode (fs : FS) (parent : List String) (sub : String)
    (mode : Nat) (hp : fs.dirExists parent = true)
    (hs : fs.dirExists (parent ++ [sub]) = false) :
    (create_subdir fs parent sub mode).1.dirs = (parent ++ [sub], 0o775) :: fs.dirs := by
  simp [create_subdir, hp, hs, FS.mkdir]

theorem create_subdir_ignores_mode_witness :
    FS.dirExists ⟨[(["a"], 0o755)]⟩ ["a"] = true
    ∧ FS.dirExists ⟨[(["a"], 0o755)]⟩ (["a"] ++ ["b"]) = false
    ∧ (create_subdir ⟨[(["a"], 0o755)]⟩ ["a"] "b" 0o700).1.dirs =
        (["a"] ++ ["b"], 0o775) :: [(["a"], 0o755)] :=
  ⟨by decide, by decide,
   create_subdir_ignores_mode ⟨[(["a"], 0o755)]⟩ ["a"] "b" 0o700 (by decide) (by decide)⟩

/-- C3 (exhibiting the code bug): starting from a filesystem in which the
top-level `books` directory is absent, `_generate_path` returns a path
normally but creates nothing at all — the resulting state is unchanged and
`CWD/books` still does not exist — because the provisioning call
`_create_subdir(BOOKS_DIR, books)` passes the missing `BOOKS_DIR` itself
as the parent, raises `FileNotFoundError`, and `@log.catch` swallows it
(and the same then happens for the book and format levels). -/
theorem generate_path_books_dir_not_created :
    generate_path ["home"] ⟨⟨some 1, some 1, some "chapter-0001"⟩, ⟨[]⟩, 0⟩ "text" true
      = .ok (PathResult.asString "/home/books/book01/text/chapter-0001.txt",
             ⟨⟨some 1, some 1, some "chapter-0001"⟩, ⟨[]⟩, 0⟩)
    ∧ FS.dirExists ⟨[]⟩ (["home"] ++ ["books"]) = false := by
  exact ⟨by decide, by decide⟩

/-- C4: path resolution is idempotent — for a valid record, calling
`_generate_path` twice with the same arguments (same working directory)
returns the same path both times, and the second call changes nothing: it
creates no directory and performs no `save()` (the whole state is fixed). -/
theorem generate_path_idempotent (cwd : List String) (st : St) (tag : String)
    (pas : Bool) (b n : Int)
    (hb : st.record.book = some b) (hc : st.record.chapter = some n)
    (hn : (n == 0) = false) (ht : tag ∈ validTags) :
    ∃ p st1, generate_path cwd st tag pas = .ok (p, st1)
      ∧ generate_path cwd st1 tag pas = .ok (p, st1) := by
  by_cases hfal : isFalsyStr st.record.filename = true
  · have h1 := generate_path_ok_gen cwd st tag pas b n hb hfal hc hn ht
    refine ⟨_, _, h1, ?_⟩
    have h2 := generate_path_ok_set cwd
      ⟨{ st.record with filename := some ("chapter-" ++ zfill (toString n) 4) },
       ensureFormatDir cwd (ensureBookDir cwd (ensureBooksDir cwd st.fs) (book_zfill b))
         (book_zfill b) tag,
       st.saves + 1⟩ tag pas b ("chapter-" ++ zfill (toString n) 4)
      (by simp [hb]) rfl (chapter_filename_ne_empty _) ht
    rw [h2]
    simp only [ensureBooksDir_eq, provision_idem]
  · rw [Bool.not_eq_true] at hfal
    obtain ⟨F, hf, hF⟩ := not_falsyStr st.record.filename hfal
    have h1 := generate_path_ok_set cwd st tag pas b F hb hf hF ht
    refine ⟨_, _, h1, ?_⟩
    have h2 := generate_path_ok_set cwd
      ⟨st.record,
       ensureFormatDir cwd (ensureBookDir cwd (ensureBooksDir cwd st.fs) (book_zfill b))
         (book_zfill b) tag,
       st.saves⟩ tag pas b F hb hf hF ht
    rw [h2]
    simp only [ensureBooksDir_eq, provision_idem]

theorem generate_path_idempotent_witness :
    ∃ p st1,
      generate_path ["home"]
          ⟨⟨some 2, some 31, none⟩, ⟨[(["home", "books"], 0o755)]⟩, 0⟩ "json" true
        = .ok (p, st1)
      ∧ generate_path ["home"] st1 "json" true = .ok (p, st1) :=
  generate_path_idempotent ["home"]
    ⟨⟨some 2, some 31, none⟩, ⟨[(["home", "books"], 0o755)]⟩, 0⟩ "json" true 2 31
    rfl rfl (by decide) (by decide)

/-- By contrast with the missing-`books` case: when `CWD/books` does exist,
the provisioning chain of `_generate_path` does leave both the book level
and the format level existing. -/
theorem provision_creates_when_books_exists (cwd : List String) (fs : FS) (z d : String)
    (hBooks : fs.dirExists (cwd ++ ["books"]) = true) :
    (ensureFormatDir cwd (ensureBookDir cwd fs z) z d).dirExists (cwd ++ ["books", z]) = true
    ∧ (ensureFormatDir cwd (ensureBookDir cwd fs z) z d).dirExists (cwd ++ ["books", z, d]) = true := by
  by_cases hBook : fs.dirExists (cwd ++ ["books", z]) = true <;>
  by_cases hFmt : fs.dirExists (cwd ++ ["books", z, d]) = true <;>
    simp [ensureBookDir_eq, ensureFormatDir_eq, hBooks, hBook, hFmt, dirExists_mkdir]
